import Mathlib

/-!
Shallow embedding of `src/data/schema.rs` (subgraph schema validation, the
resolution of cross-schema imports and API-schema derivation), with proofs.

Conventions of the embedding:
* Rust `Option`/`Result` become `Option`/`Except`.
* A Rust panic (`unwrap()`/`expect(...)` on a missing value) is modelled as
  the value `none` of an `Option`-typed result.
* `HashMap`/`HashSet`/`BTreeMap` values are modelled as association lists;
  `HashMap::from_iter` keeps the raw entry list and lookups take the last
  binding for a key, matching the later-entry-overwrites semantics.
* Machine strings are Lean `String`s; prefix tests and hex decoding are
  written on the underlying character lists so that they evaluate.
-/

namespace GraphNode

/-- GraphQL type expressions (`s::Type` of the external parser): a named type,
a list wrapper or a non-null wrapper. -/
inductive SType where
  | namedType (name : String)
  | listType (t : SType)
  | nonNullType (t : SType)

/-- Directive argument values (`q::Value` of the external parser), restricted
to the variants this module inspects.  An `Object` value's `BTreeMap` is an
association list of key/value pairs. -/
inductive Value where
  | string (s : String)
  | enumValue (s : String)
  | int (n : Int)
  | boolean (b : Bool)
  | null
  | list (vs : List Value)
  | object (fields : List (String × Value))

/-- Modelled from the spec: `ValueExt::as_str` (crate module `data/graphql/ext`,
not under `src/`) — the payload when the value is the `String` variant. -/
def Value.as_str : Value → Option String
  | .string s => some s
  | _ => none

/-- Modelled from the spec: `ValueExt::as_enum` — the payload when the value is
the `Enum` variant. -/
def Value.as_enum : Value → Option String
  | .enumValue s => some s
  | _ => none

/-- Modelled from the spec: `ValueExt::as_list` — the payload when the value is
the `List` variant. -/
def Value.as_list : Value → Option (List Value)
  | .list vs => some vs
  | _ => none

/-- Modelled from the spec: `ValueExt::as_object` — the payload when the value
is the `Object` variant. -/
def Value.as_object : Value → Option (List (String × Value))
  | .object fields => some fields
  | _ => none

/-- Modelled from the spec: `BTreeMap::get` on an object value's field map. -/
def objectGet (fields : List (String × Value)) (k : String) : Option Value :=
  (fields.find? (fun p => p.1 == k)).map (fun p => p.2)

/-- A directive usage (`s::Directive`): its name and named arguments.
Source positions are irrelevant to the embedded logic and are elided. -/
structure Directive where
  name : String
  arguments : List (String × Value)

/-- Modelled from the spec: `DirectiveExt::argument` — look up a directive
argument by name. -/
def Directive.argument (d : Directive) (name : String) : Option Value :=
  (d.arguments.find? (fun p => p.1 == name)).map (fun p => p.2)

/-- A field of an object or interface type (`s::Field`); only the name and the
field type are inspected by the embedded code. -/
structure Field where
  name : String
  field_type : SType

/-- An object type definition (`s::ObjectType`); name, fields and directives. -/
structure ObjectType where
  name : String
  fields : List Field
  directives : List Directive

/-- An interface type definition (`s::InterfaceType`). -/
structure InterfaceType where
  name : String
  fields : List Field

/-- A type definition (`s::TypeDefinition`).  For the kinds whose inner
structure the embedded code never inspects only the name is carried. -/
inductive TypeDefinition where
  | scalar (name : String)
  | object (t : ObjectType)
  | interface (t : InterfaceType)
  | union (name : String)
  | enum (name : String)
  | inputObject (name : String)

/-- The name of a type definition. -/
def TypeDefinition.name : TypeDefinition → String
  | .scalar n => n
  | .object t => t.name
  | .interface t => t.name
  | .union n => n
  | .enum n => n
  | .inputObject n => n

/-- A document definition (`s::Definition`): a type definition or one of the
other definition kinds this module never inspects beyond skipping them. -/
inductive Definition where
  | typeDefinition (td : TypeDefinition)
  | schemaDefinition
  | directiveDefinition (name : String)

/-- A parsed schema document (`s::Document`). -/
structure Document where
  definitions : List Definition

/-- Modelled from the spec: `DocumentExt::get_object_type_definitions` — every
object type definition of the document, in declaration order. -/
def Document.get_object_type_definitions (d : Document) : List ObjectType :=
  d.definitions.filterMap fun defn =>
    match defn with
    | .typeDefinition (.object t) => some t
    | _ => none

/-- Modelled from the spec: `DocumentExt::get_object_type_definition` — the
first object type definition with the given name. -/
def Document.get_object_type_definition (d : Document) (name : String) :
    Option ObjectType :=
  d.get_object_type_definitions.find? (fun t => t.name == name)

/-- Modelled from the spec: `DocumentExt::get_root_query_type` — the object
type definition named `Query`. -/
def Document.get_root_query_type (d : Document) : Option ObjectType :=
  d.get_object_type_definitions.find? (fun t => t.name == "Query")

/-- Modelled from the spec: `DocumentExt::get_root_subscription_type` — the
object type definition named `Subscription`. -/
def Document.get_root_subscription_type (d : Document) : Option ObjectType :=
  d.get_object_type_definitions.find? (fun t => t.name == "Subscription")

/-- Modelled from the spec: `get_named_type` — the type definition (of any
kind) with the given name. -/
def Document.get_named_type (d : Document) (name : String) :
    Option TypeDefinition :=
  (d.definitions.filterMap fun defn =>
    match defn with
    | .typeDefinition td => some td
    | _ => none).find? (fun td => td.name == name)

/-- An object or interface definition (`ObjectOrInterface` of the crate's
graphql module). -/
inductive ObjectOrInterface where
  | object (t : ObjectType)
  | interface (t : InterfaceType)

/-- Modelled from the spec: `DocumentExt::object_or_interface` — the object or
interface type definition with the given name. -/
def Document.object_or_interface (d : Document) (name : String) :
    Option ObjectOrInterface :=
  (d.definitions.filterMap fun defn =>
    match defn with
    | .typeDefinition (.object t) => some (ObjectOrInterface.object t)
    | .typeDefinition (.interface t) => some (ObjectOrInterface.interface t)
    | _ => none).find? (fun oi =>
      match oi with
      | .object t => t.name == name
      | .interface t => t.name == name)

/-- Modelled from the spec: `TypeExt::get_base_type` — the named type after
unwrapping list and non-null wrappers. -/
def SType.get_base_type : SType → String
  | .namedType n => n
  | .listType t => t.get_base_type
  | .nonNullType t => t.get_base_type

/-- Modelled from the spec: `ObjectTypeExt::field` — look up a field of an
object type by name. -/
def ObjectType.field (t : ObjectType) (name : String) : Option Field :=
  t.fields.find? (fun f => f.name == name)

/-- The value of a hexadecimal digit character, if it is one. -/
def hexDigitVal (c : Char) : Option Nat :=
  if '0' ≤ c ∧ c ≤ '9' then some (c.toNat - '0'.toNat)
  else if 'a' ≤ c ∧ c ≤ 'f' then some (c.toNat - 'a'.toNat + 10)
  else if 'A' ≤ c ∧ c ≤ 'F' then some (c.toNat - 'A'.toNat + 10)
  else none

/-- Decode a character list as hexadecimal byte pairs; fails on an odd length
or a non-hex character. -/
def hexDecode : List Char → Option (List Nat)
  | [] => some []
  | c1 :: c2 :: rest => do
    let hi ← hexDigitVal c1
    let lo ← hexDigitVal c2
    let bs ← hexDecode rest
    pure ((16 * hi + lo) :: bs)
  | [_] => none

/-- Modelled from the spec: `scalar::Bytes::from_str` (crate module
`data/store/scalar`, not under `src/`) — parse a raw id string as a
byte-sequence literal: strip an optional `0x` prefix and hex-decode the rest,
so `"0xab"` yields the single byte `0xAB`. -/
def Bytes.from_str (s : String) : Except String (List Nat) :=
  let chars :=
    match s.data with
    | '0' :: 'x' :: rest => rest
    | cs => cs
  match hexDecode chars with
  | some bs => Except.ok bs
  | none => Except.error ("invalid hex string " ++ s)

/-- A typed store value (`store::Value`), restricted to the variants
`Schema::id_value` can produce. -/
inductive StoreValue where
  | string (s : String)
  | bytes (bs : List Nat)

/-- Modelled from the spec: `EntityKey` (crate module `components/store`, not
under `src/`) — the entity type name and the raw entity id of one entity. -/
structure EntityKey where
  entity_type : String
  entity_id : String

/-- Source `SchemaValidationError`: the source declares a single placeholder
variant. -/
inductive SchemaValidationError where
  | A

/-- Source `FulltextAlgorithm`: the two fulltext ranking algorithms. -/
inductive FulltextAlgorithm where
  | rank
  | proximityRank

/-- Source `FulltextAlgorithm::try_from(&str)`: `"rank"` and `"proximityRank"` parse,
every other string is rejected with a message listing the valid values. -/
def FulltextAlgorithm.try_from (algorithm : String) :
    Except String FulltextAlgorithm :=
  if algorithm = "rank" then Except.ok FulltextAlgorithm.rank
  else if algorithm = "proximityRank" then
    Except.ok FulltextAlgorithm.proximityRank
  else
    Except.error ("The provided fulltext search algorithm " ++ algorithm ++
      " is invalid. It must be one of: rank, proximityRank")

/-- Source `FulltextConfig`: language (the source's placeholder unit) and
algorithm. -/
structure FulltextConfig where
  language : Unit
  algorithm : FulltextAlgorithm

/-- Source `FulltextDefinition`: the typed content of an `@fulltext` directive.  The
`HashSet` of included field names is modelled as the list of collected
names. -/
structure FulltextDefinition where
  config : FulltextConfig
  included_fields : List String
  name : String

/-- Source `impl From<&s::Directive> for FulltextDefinition`: the source comment says
it assumes an already-validated directive and it calls `unwrap()` on every
extraction step; each such panic is modelled as `none`. -/
def FulltextDefinition.from_directive (directive : Directive) :
    Option FulltextDefinition := do
  let nameValue ← directive.argument "name"
  let name ← nameValue.as_str
  let algorithmValue ← directive.argument "algorithm"
  let algorithmStr ← algorithmValue.as_enum
  let algorithm ← (FulltextAlgorithm.try_from algorithmStr).toOption
  let includeValue ← directive.argument "include"
  let included_entity_list ← includeValue.as_list
  let firstEntity ← included_entity_list.head?
  let included_entity ← firstEntity.as_object
  let fieldsValue ← objectGet included_entity "fields"
  let included_field_values ← fieldsValue.as_list
  let included_fields ← included_field_values.mapM (fun fld => do
    let fldObj ← fld.as_object
    let fldName ← objectGet fldObj "name"
    fldName.as_str)
  pure { config := { language := (), algorithm := algorithm },
         included_fields := included_fields, name := name }

/-- Source `SchemaReference`: identifies another subgraph's schema; in the source the
subgraph identity is the unit placeholder. -/
structure SchemaReference where
  subgraph : Unit

/-- Source `SchemaImportError`: the two cross-schema resolution failures. -/
inductive SchemaImportError where
  | ImportedSchemaNotFound (r : SchemaReference)
  | ImportedSubgraphNotFound (r : SchemaReference)

/-- Source `Schema`: identity, parsed document and the two type-index maps (the
`BTreeMap`s are modelled as association lists; `EntityType` keys are the
underlying strings). -/
structure Schema where
  id : Unit
  document : Document
  interfaces_for_type : List (String × List InterfaceType)
  types_for_interface : List (String × List ObjectType)

/-- Source `Schema::id_value`: derive the typed id value for an entity key from the
entity type's `id` field's base type.  The `.field("id").unwrap()` panic of
the source is modelled as `none`; every non-panicking outcome is `some` of the
source's `Result`. -/
def Schema.id_value (s : Schema) (key : EntityKey) :
    Option (Except String StoreValue) :=
  match s.document.get_object_type_definition key.entity_type with
  | none => some (Except.error ("Entity " ++ key.entity_type ++ "[" ++
      key.entity_id ++ "]: unknown entity type `" ++ key.entity_type ++ "`"))
  | some objType =>
    match objType.field "id" with
    | none => none
    | some idField =>
      let base_type := idField.field_type.get_base_type
      if base_type = "ID" ∨ base_type = "String" then
        some (Except.ok (StoreValue.string key.entity_id))
      else if base_type = "Bytes" then
        some ((Bytes.from_str key.entity_id).map StoreValue.bytes)
      else
        some (Except.error ("Entity type " ++ key.entity_type ++
          " uses illegal type " ++ base_type ++ " for id column"))

/-- Source `Schema::resolve_import_graph`: in the source the body is the stub
`vec![]` — it never touches the result map, the visit log or the store.  The
`&mut` parameters become explicit state passing: the function returns the
(unchanged) map and visit log together with the (empty) error list. -/
def Schema.resolve_import_graph (s : Schema)
    (store : SchemaReference → Option Schema)
    (schemas : List (SchemaReference × Schema)) (visit_log : List Unit) :
    List (SchemaReference × Schema) × List Unit × List SchemaImportError :=
  (schemas, visit_log, [])

/-- Source `Schema::resolve_schema_references`: start from an empty map and visit log
and run `resolve_import_graph`, returning the map and the import errors.  The
store collaborator is the spec's lookup contract, a function from references
to optional schemas. -/
def Schema.resolve_schema_references (s : Schema)
    (store : SchemaReference → Option Schema) :
    List (SchemaReference × Schema) × List SchemaImportError :=
  let schemas : List (SchemaReference × Schema) := []
  let visit_log : List Unit := []
  let r := s.resolve_import_graph store schemas visit_log
  (r.1, r.2.2)

/-- Source `Schema::validate`: in the source the body is the stub `Ok(())` — every
concrete check is unimplemented and no error is ever returned. -/
def Schema.validate (s : Schema)
    (schemas : List (SchemaReference × Schema)) :
    Except (List SchemaValidationError) Unit :=
  Except.ok ()

/-- Source `add_introspection_schema`: in the source the body is empty, so the
document is returned unchanged. -/
def add_introspection_schema (d : Document) : Document := d

/-- Source `INTROSPECTION_SCHEMA`: in the source this is `parse_schema("")` applied to
the built-in string, which is the empty string.  Modelled from the spec: the
external grammar parser (out of scope) maps the empty string to a document
with no definitions. -/
def INTROSPECTION_SCHEMA : Document := Document.mk []

/-- Lookup in a `HashMap` built by `HashMap::from_iter` from an entry list:
the last binding for a key wins. -/
def hashMapGet {α : Type} (m : List (String × α)) (k : String) : Option α :=
  (m.reverse.find? (fun p => p.1 == k)).map (fun p => p.2)

/-- Source `ApiSchema`: a schema plus the cached root query type, optional root
subscription type and the name-keyed object type cache (`Arc` sharing is
dropped; the `HashMap` keeps its `from_iter` entry list). -/
structure ApiSchema where
  schema : Schema
  query_type : ObjectType
  subscription_type : Option ObjectType
  object_types : List (String × ObjectType)

/-- Source `ApiSchema::from_api_schema`: mix in the introspection schema, resolve the
mandatory root query type (absence is the fatal "no root `Query`" error), the
optional subscription type, and build the object-type cache. -/
def ApiSchema.from_api_schema (api_schema : Schema) :
    Except String ApiSchema :=
  let document := add_introspection_schema api_schema.document
  let api_schema2 : Schema := { api_schema with document := document }
  match document.get_root_query_type with
  | none => Except.error "no root `Query` in the schema"
  | some query_type =>
    let subscription_type := document.get_root_subscription_type
    let object_types :=
      document.get_object_type_definitions.map (fun t => (t.name, t))
    Except.ok { schema := api_schema2, query_type := query_type,
                subscription_type := subscription_type,
                object_types := object_types }

/-- Source `ApiSchema::get_named_type`: delegate to the wrapped document. -/
def ApiSchema.get_named_type (a : ApiSchema) (name : String) :
    Option TypeDefinition :=
  a.schema.document.get_named_type name

/-- Source `ApiSchema::is_input_type`: unwrap list and non-null wrappers recursively;
a named type is an input type exactly when it resolves to a scalar, enum or
input-object definition. -/
def ApiSchema.is_input_type (a : ApiSchema) : SType → Bool
  | .namedType name =>
    (a.get_named_type name).elim false (fun type_def =>
      match type_def with
      | TypeDefinition.scalar _ => true
      | TypeDefinition.enum _ => true
      | TypeDefinition.inputObject _ => true
      | _ => false)
  | .listType inner => a.is_input_type inner
  | .nonNullType inner => a.is_input_type inner

/-- Rust `str::starts_with("__")` on the introspection marker, written on the
character list so that it evaluates. -/
def startsWithIntrospectionMarker (name : String) : Bool :=
  match name.data with
  | c1 :: c2 :: _ => c1 == '_' && c2 == '_'
  | _ => false

/-- Source `ApiSchema::object_or_interface`: names carrying the `__` introspection
marker resolve against `INTROSPECTION_SCHEMA`, every other name against the
wrapped document. -/
def ApiSchema.object_or_interface (a : ApiSchema) (name : String) :
    Option ObjectOrInterface :=
  if startsWithIntrospectionMarker name then
    INTROSPECTION_SCHEMA.object_or_interface name
  else
    a.schema.document.object_or_interface name

/-- Source `ApiSchema::object_type`: cache lookup by the argument type's name; the
source's `.expect(...)` panic on a missing name is modelled as `none`. -/
def ApiSchema.object_type (a : ApiSchema) (obj_type : ObjectType) :
    Option ObjectType :=
  hashMapGet a.object_types obj_type.name

/-! Concrete fixtures used by the closed theorems and witnesses below. -/

/-- An `@import` directive referencing subgraph `QmB`. -/
def c3ImportB : Directive :=
  Directive.mk "import"
    [("types", Value.list [Value.string "B"]),
     ("subgraph", Value.object [("id", Value.string "QmB")])]

/-- An `@import` directive referencing subgraph `QmC`. -/
def c3ImportC : Directive :=
  Directive.mk "import"
    [("types", Value.list [Value.string "C"]),
     ("subgraph", Value.object [("id", Value.string "QmC")])]

/-- A schema whose `_Schema_` type imports from two subgraphs. -/
def c3SchemaA : Schema :=
  Schema.mk () (Document.mk [Definition.typeDefinition (TypeDefinition.object
    (ObjectType.mk "_Schema_" [] [c3ImportB, c3ImportC]))]) [] []

/-- The (empty-document) schema the store returns for resolvable imports. -/
def c3SchemaB : Schema := Schema.mk () (Document.mk []) [] []

/-- A store that resolves every reference to `c3SchemaB`. -/
def c3Store : SchemaReference → Option Schema := fun _ => some c3SchemaB

/-- A document defining entity types whose `id` fields have base types `ID`,
`Bytes` and `Int`. -/
def c4Document : Document :=
  Document.mk
    [Definition.typeDefinition (TypeDefinition.object
       (ObjectType.mk "Token"
         [Field.mk "id" (SType.nonNullType (SType.namedType "ID"))] [])),
     Definition.typeDefinition (TypeDefinition.object
       (ObjectType.mk "Wallet"
         [Field.mk "id" (SType.nonNullType (SType.namedType "Bytes"))] [])),
     Definition.typeDefinition (TypeDefinition.object
       (ObjectType.mk "Counter"
         [Field.mk "id" (SType.nonNullType (SType.namedType "Int"))] []))]

/-- The schema wrapping `c4Document`. -/
def c4Schema : Schema := Schema.mk () c4Document [] []

/-- A schema whose document has no root `Query` type. -/
def c6EmptySchema : Schema := Schema.mk () (Document.mk []) [] []

/-- A schema whose document defines a root `Query` type. -/
def c6QuerySchema : Schema :=
  Schema.mk () (Document.mk [Definition.typeDefinition (TypeDefinition.object
    (ObjectType.mk "Query" [] []))]) [] []

/-- A document defining `Query` and `Token` but no introspection types. -/
def c7Document : Document :=
  Document.mk
    [Definition.typeDefinition (TypeDefinition.object
       (ObjectType.mk "Query" [] [])),
     Definition.typeDefinition (TypeDefinition.object
       (ObjectType.mk "Token" [] []))]

/-- The ApiSchema over `c7Document`, as `from_api_schema` builds it. -/
def c7Api : ApiSchema :=
  { schema := Schema.mk () c7Document [] [],
    query_type := ObjectType.mk "Query" [] [],
    subscription_type := none,
    object_types := [("Query", ObjectType.mk "Query" [] []),
                     ("Token", ObjectType.mk "Token" [] [])] }

/-- A one-type schema for the object-type cache witness. -/
def c10Schema : Schema :=
  Schema.mk () (Document.mk [Definition.typeDefinition (TypeDefinition.object
    (ObjectType.mk "Query" [] []))]) [] []

/-- The ApiSchema `from_api_schema` builds from `c10Schema`. -/
def c10Api : ApiSchema :=
  { schema := c10Schema, query_type := ObjectType.mk "Query" [] [],
    subscription_type := none,
    object_types := [("Query", ObjectType.mk "Query" [] [])] }

/-! Theorems. -/

/-- Helper: a `hashMapGet` lookup succeeds exactly when some entry of the map
carries the key. -/
theorem hashMapGet_isSome_iff {α : Type} (m : List (String × α)) (k : String) :
    (hashMapGet m k).isSome = true ↔ ∃ p ∈ m, p.1 = k := by
  simp [hashMapGet, List.find?_isSome, List.mem_reverse]

/-- Helper: the shape of a successful `ApiSchema.from_api_schema`: the cached
query type, subscription type and object-type cache are computed from the
document. -/
theorem from_api_schema_ok_shape (s : Schema) (a : ApiSchema)
    (h : ApiSchema.from_api_schema s = Except.ok a) :
    ∃ q, s.document.get_root_query_type = some q ∧
      a.query_type = q ∧
      a.subscription_type = s.document.get_root_subscription_type ∧
      a.object_types =
        s.document.get_object_type_definitions.map (fun t => (t.name, t)) := by
  simp only [ApiSchema.from_api_schema, add_introspection_schema] at h
  cases hq : s.document.get_root_query_type with
  | none => rw [hq] at h; cases h
  | some q =>
    rw [hq] at h
    cases h
    exact ⟨q, rfl, rfl, rfl, rfl⟩

/-- C1: the claim says `validate` aggregates one error per structural defect
into an `Err`; in the source `Schema::validate` is a stub returning `Ok(())`,
so every schema — defective or not — validates with zero errors and an `Err`
list of any length is impossible. -/
theorem c1_validate_is_stubbed_ok (s : Schema)
    (schemas : List (SchemaReference × Schema)) :
    Schema.validate s schemas = Except.ok () ∧
      ∀ errs : List SchemaValidationError,
        Schema.validate s schemas ≠ Except.error errs :=
  ⟨rfl, fun _ h => Except.noConfusion h⟩

/-- C2: the claim says resolution of a cyclic import pair returns a two-entry
result map; in the source `resolve_import_graph` is the stub `vec![]` that
never touches the result map, the visit log or the store, so
`resolve_schema_references` returns the empty map and empty error list for
every schema and store. -/
theorem c2_resolve_schema_references_is_stubbed_empty (s : Schema)
    (store : SchemaReference → Option Schema) :
    s.resolve_schema_references store = ([], []) := rfl

/-- C3: the claim says a schema importing a resolvable and an unresolvable
subgraph yields a one-entry map plus one `ImportedSchemaNotFound`; on the
concrete two-import schema the stubbed traversal returns the empty map and no
errors at all. -/
theorem c3_resolve_partial_failure_stubbed :
    c3SchemaA.resolve_schema_references c3Store = ([], []) := rfl

/-- C4: for an entity type defined in the document with an `id` field,
`id_value` yields the raw id as a string for base types `ID` and `String`,
the hex-parsed bytes for base type `Bytes`, and the illegal-id-type error
naming the entity type and the base type otherwise. -/
theorem c4_id_value_spec (s : Schema) (key : EntityKey) (objType : ObjectType)
    (idField : Field)
    (hobj : s.document.get_object_type_definition key.entity_type =
      some objType)
    (hid : objType.field "id" = some idField) :
    (idField.field_type.get_base_type = "ID" ∨
        idField.field_type.get_base_type = "String" →
      s.id_value key = some (Except.ok (StoreValue.string key.entity_id))) ∧
    (idField.field_type.get_base_type = "Bytes" →
      s.id_value key =
        some ((Bytes.from_str key.entity_id).map StoreValue.bytes)) ∧
    (¬ (idField.field_type.get_base_type = "ID" ∨
          idField.field_type.get_base_type = "String") →
      idField.field_type.get_base_type ≠ "Bytes" →
      s.id_value key = some (Except.error ("Entity type " ++
        key.entity_type ++ " uses illegal type " ++
        idField.field_type.get_base_type ++ " for id column"))) := by
  simp only [Schema.id_value, hobj, hid]
  refine ⟨?_, ?_, ?_⟩
  · intro h
    rw [if_pos h]
  · intro h
    rw [if_neg (by rw [h]; decide), if_pos h]
  · intro h1 h2
    rw [if_neg h1, if_neg h2]

/-- C4 witness: on `c4Schema`, a `Token` with raw id `42` yields the string
`42`, a `Wallet` with raw id `0xab` yields the byte `0xAB`, and a `Counter`
(integer id) yields the illegal-id-type error. -/
theorem c4_id_value_witness :
    c4Schema.id_value ⟨"Token", "42"⟩ =
        some (Except.ok (StoreValue.string "42")) ∧
    c4Schema.id_value ⟨"Wallet", "0xab"⟩ =
        some (Except.ok (StoreValue.bytes [171])) ∧
    c4Schema.id_value ⟨"Counter", "7"⟩ =
        some (Except.error
          "Entity type Counter uses illegal type Int for id column") := by
  refine ⟨?_, ?_, ?_⟩
  · exact (c4_id_value_spec c4Schema ⟨"Token", "42"⟩
      (ObjectType.mk "Token"
        [Field.mk "id" (SType.nonNullType (SType.namedType "ID"))] [])
      (Field.mk "id" (SType.nonNullType (SType.namedType "ID")))
      rfl rfl).1 (Or.inl rfl)
  · have h := (c4_id_value_spec c4Schema ⟨"Wallet", "0xab"⟩
      (ObjectType.mk "Wallet"
        [Field.mk "id" (SType.nonNullType (SType.namedType "Bytes"))] [])
      (Field.mk "id" (SType.nonNullType (SType.namedType "Bytes")))
      rfl rfl).2.1 rfl
    rw [h]
    rfl
  · have h := (c4_id_value_spec c4Schema ⟨"Counter", "7"⟩
      (ObjectType.mk "Counter"
        [Field.mk "id" (SType.nonNullType (SType.namedType "Int"))] [])
      (Field.mk "id" (SType.nonNullType (SType.namedType "Int")))
      rfl rfl).2.2 (by decide) (by decide)
    rw [h]
    rfl

/-- C5: parsing a fulltext algorithm string succeeds exactly on the two
case-sensitive literals `rank` and `proximityRank`, and every other string
fails with the message listing those two valid values. -/
theorem c5_fulltext_algorithm_parse (s : String) :
    ((FulltextAlgorithm.try_from s).toOption.isSome = true ↔
        s = "rank" ∨ s = "proximityRank") ∧
    FulltextAlgorithm.try_from "rank" = Except.ok FulltextAlgorithm.rank ∧
    FulltextAlgorithm.try_from "proximityRank" =
        Except.ok FulltextAlgorithm.proximityRank ∧
    (s ≠ "rank" → s ≠ "proximityRank" →
      FulltextAlgorithm.try_from s = Except.error
        ("The provided fulltext search algorithm " ++ s ++
          " is invalid. It must be one of: rank, proximityRank")) := by
  refine ⟨?_, rfl, rfl, ?_⟩
  · unfold FulltextAlgorithm.try_from
    split_ifs with h1 h2
    · simp [h1, Except.toOption]
    · simp [h2, Except.toOption]
    · simp [Except.toOption, h1, h2]
  · intro h1 h2
    unfold FulltextAlgorithm.try_from
    rw [if_neg h1, if_neg h2]

/-- C5 witness: the literal `fastrank` is rejected with the message listing
the two valid values, and the two valid literals parse. -/
theorem c5_fulltext_algorithm_witness :
    FulltextAlgorithm.try_from "fastrank" = Except.error
      "The provided fulltext search algorithm fastrank is invalid. It must be one of: rank, proximityRank" := by
  have h := (c5_fulltext_algorithm_parse "fastrank").2.2.2
    (by decide) (by decide)
  rw [h]
  rfl

/-- C6: `from_api_schema` fails with the `no root Query` error exactly when
the (introspection-mixed, here unchanged) document has no root `Query` object
type; on success it caches the query type, the optional subscription type and
a name-keyed cache containing every object type definition of the document. -/
theorem c6_from_api_schema_spec (s : Schema) :
    (s.document.get_root_query_type = none →
      ApiSchema.from_api_schema s =
        Except.error "no root `Query` in the schema") ∧
    (∀ q, s.document.get_root_query_type = some q →
      ∃ a, ApiSchema.from_api_schema s = Except.ok a ∧
        a.query_type = q ∧
        a.subscription_type = s.document.get_root_subscription_type ∧
        ∀ n, (hashMapGet a.object_types n).isSome = true ↔
          ∃ t ∈ s.document.get_object_type_definitions, t.name = n) := by
  constructor
  · intro h
    simp only [ApiSchema.from_api_schema, add_introspection_schema]
    rw [h]
  · intro q hq
    refine ⟨{ schema := s, query_type := q,
              subscription_type := s.document.get_root_subscription_type,
              object_types := s.document.get_object_type_definitions.map
                (fun t => (t.name, t)) }, ?_, rfl, rfl, ?_⟩
    · simp only [ApiSchema.from_api_schema, add_introspection_schema]
      rw [hq]
    · intro n
      rw [hashMapGet_isSome_iff]
      constructor
      · rintro ⟨p, hp, hpk⟩
        rcases List.mem_map.mp hp with ⟨t, ht, rfl⟩
        exact ⟨t, ht, hpk⟩
      · rintro ⟨t, ht, htn⟩
        exact ⟨(t.name, t), List.mem_map.mpr ⟨t, ht, rfl⟩, htn⟩

/-- C6 witness: construction on a document with no `Query` fails with exactly
the `no root Query` error, and on a document defining `Query` it succeeds. -/
theorem c6_from_api_schema_witness :
    ApiSchema.from_api_schema c6EmptySchema =
        Except.error "no root `Query` in the schema" ∧
    (ApiSchema.from_api_schema c6QuerySchema).isOk = true := by
  constructor
  · exact (c6_from_api_schema_spec c6EmptySchema).1 rfl
  · obtain ⟨a, ha, -⟩ := (c6_from_api_schema_spec c6QuerySchema).2
      (ObjectType.mk "Query" [] []) rfl
    rw [ha]
    rfl

/-- C7: names carrying the `__` marker are resolved against the built-in
introspection document only (never the wrapped document) and plain names
against the wrapped document — but the source parses the built-in from the
empty string, so the built-in document is empty and `__Type` resolves to
`none` for every ApiSchema, not to an introspection definition. -/
theorem c7_object_or_interface_introspection_empty :
    (∀ a : ApiSchema, a.object_or_interface "__Type" = none) ∧
    INTROSPECTION_SCHEMA = Document.mk [] ∧
    c7Api.object_or_interface "Token" =
      some (ObjectOrInterface.object (ObjectType.mk "Token" [] [])) :=
  ⟨fun _ => rfl, rfl, rfl⟩

/-- C8 counterexample: on a directive with no arguments at all the conversion
hits `directive.argument("name").unwrap()`, which panics (modelled `none`); it
does not return a typed failure. -/
theorem c8_from_directive_counterexample :
    FulltextDefinition.from_directive (Directive.mk "fulltext" []) = none :=
  rfl

/-- C8 amended: when the name, algorithm or include argument of the directive
is missing or has a malformed shape — the extraction pipeline of any of the
three arguments fails: the argument is absent, its value has the wrong kind,
the algorithm string is invalid, the include list is empty, or an entry of it
(or of its `fields` list) is not an object of the expected shape — the
conversion to `FulltextDefinition` panics (modelled `none`) instead of
returning a typed failure; it assumes, as its source comment states, a
directive that already passed validation. -/
theorem c8_from_directive_panics_on_bad_argument (d : Directive)
    (h : (do
        let nameValue ← d.argument "name"
        nameValue.as_str) = none ∨
      (do
        let algorithmValue ← d.argument "algorithm"
        let algorithmStr ← algorithmValue.as_enum
        (FulltextAlgorithm.try_from algorithmStr).toOption) = none ∨
      (do
        let includeValue ← d.argument "include"
        let included_entity_list ← includeValue.as_list
        let firstEntity ← included_entity_list.head?
        let included_entity ← firstEntity.as_object
        let fieldsValue ← objectGet included_entity "fields"
        let included_field_values ← fieldsValue.as_list
        included_field_values.mapM (fun fld => do
          let fldObj ← fld.as_object
          let fldName ← objectGet fldObj "name"
          fldName.as_str)) = none) :
    FulltextDefinition.from_directive d = none := by
  unfold FulltextDefinition.from_directive
  cases hn : d.argument "name" with
  | none => simp [hn]
  | some v =>
    cases hs : v.as_str with
    | none => simp [hn, hs]
    | some s0 =>
      rcases h with h | h | h
      · rw [hn] at h
        simp [hs] at h
      · cases ha : d.argument "algorithm" with
        | none => simp [hn, hs, ha]
        | some w =>
          cases hw : w.as_enum with
          | none => simp [hn, hs, ha, hw]
          | some e =>
            cases he : (FulltextAlgorithm.try_from e).toOption with
            | none => simp [hn, hs, ha, hw, he]
            | some alg =>
              rw [ha] at h
              simp [hw, he] at h
      · cases ha : d.argument "algorithm" with
        | none => simp [hn, hs, ha]
        | some w =>
          cases hw : w.as_enum with
          | none => simp [hn, hs, ha, hw]
          | some e =>
            cases he : (FulltextAlgorithm.try_from e).toOption with
            | none => simp [hn, hs, ha, hw, he]
            | some alg =>
              cases hi : d.argument "include" with
              | none => simp [hn, hs, ha, hw, he, hi]
              | some iv =>
                cases hl : iv.as_list with
                | none => simp [hn, hs, ha, hw, he, hi, hl]
                | some lst =>
                  cases hh : lst.head? with
                  | none => simp [hn, hs, ha, hw, he, hi, hl, hh]
                  | some firstEntity =>
                    cases ho : firstEntity.as_object with
                    | none => simp [hn, hs, ha, hw, he, hi, hl, hh, ho]
                    | some ent =>
                      cases hf : objectGet ent "fields" with
                      | none => simp [hn, hs, ha, hw, he, hi, hl, hh, ho, hf]
                      | some fv =>
                        cases hfl : fv.as_list with
                        | none =>
                          simp [hn, hs, ha, hw, he, hi, hl, hh, ho, hf, hfl]
                        | some fvs =>
                          simp only [hi, Option.bind_eq_bind, Option.some_bind,
                            hl, hh, ho, hf, hfl] at h
                          simp only [hn, hs, ha, hw, he, hi, hl, hh, ho, hf,
                            hfl, Option.bind_eq_bind, Option.some_bind]
                          rw [h]
                          rfl

/-- C8 witness: a directive whose name argument is present but malformed (an
integer, not a string) panics even though all three arguments are present and
the rest are well-formed, and a directive whose include argument is the empty
list panics because the first included entity is taken unconditionally. -/
theorem c8_from_directive_witness :
    FulltextDefinition.from_directive
      (Directive.mk "fulltext"
        [("name", Value.int 3),
         ("algorithm", Value.enumValue "rank"),
         ("include", Value.list [Value.object [("fields",
            Value.list [Value.object [("name", Value.string "body")]])]])]) =
        none ∧
    FulltextDefinition.from_directive
      (Directive.mk "fulltext"
        [("name", Value.string "search"),
         ("algorithm", Value.enumValue "rank"),
         ("include", Value.list [])]) = none :=
  ⟨c8_from_directive_panics_on_bad_argument _ (Or.inl rfl),
   c8_from_directive_panics_on_bad_argument _ (Or.inr (Or.inr rfl))⟩

/-- C9: `is_input_type` strips list and non-null wrappers down to the base
named type and holds exactly when that name resolves in the schema to a
scalar, enum or input-object definition; any other resolved kind, and any
unresolved name, yields false. -/
theorem c9_is_input_type_iff (a : ApiSchema) (t : SType) :
    a.is_input_type t = true ↔
      ∃ td, a.get_named_type t.get_base_type = some td ∧
        (match td with
         | TypeDefinition.scalar _ => True
         | TypeDefinition.enum _ => True
         | TypeDefinition.inputObject _ => True
         | _ => False) := by
  induction t with
  | namedType name =>
    simp only [ApiSchema.is_input_type, SType.get_base_type]
    cases h : a.get_named_type name with
    | none => simp [h, Option.elim]
    | some td => cases td <;> simp [h, Option.elim]
  | listType inner ih =>
    simpa only [ApiSchema.is_input_type, SType.get_base_type] using ih
  | nonNullType inner ih =>
    simpa only [ApiSchema.is_input_type, SType.get_base_type] using ih

/-- C10: for an ApiSchema built by `from_api_schema`, `object_type` is the
cache lookup by the argument type's name: it returns the cached entry exactly
when the name is a key of the construction-time cache — equivalently, when the
document defines an object type of that name — and panics (modelled `none`)
for every other type. -/
theorem c10_object_type_cache (s : Schema) (a : ApiSchema)
    (h : ApiSchema.from_api_schema s = Except.ok a) (t : ObjectType) :
    a.object_type t = hashMapGet a.object_types t.name ∧
    ((a.object_type t).isSome = true ↔
      ∃ u ∈ s.document.get_object_type_definitions, u.name = t.name) := by
  obtain ⟨q, hq, hqt, hsub, hobj⟩ := from_api_schema_ok_shape s a h
  refine ⟨rfl, ?_⟩
  unfold ApiSchema.object_type
  rw [hobj, hashMapGet_isSome_iff]
  constructor
  · rintro ⟨p, hp, hpk⟩
    rcases List.mem_map.mp hp with ⟨u, hu, rfl⟩
    exact ⟨u, hu, hpk⟩
  · rintro ⟨u, hu, hun⟩
    exact ⟨(u.name, u), List.mem_map.mpr ⟨u, hu, rfl⟩, hun⟩

/-- C10 witness: on the cache built by `from_api_schema` from a one-type
document, lookup of the cached name succeeds, and lookup of a type with an
absent name is the modelled panic. -/
theorem c10_object_type_witness :
    (c10Api.object_type (ObjectType.mk "Query" [] [])).isSome = true ∧
    c10Api.object_type (ObjectType.mk "Absent" [] []) = none := by
  constructor
  · exact (c10_object_type_cache c10Schema c10Api rfl
        (ObjectType.mk "Query" [] [])).2.mpr
      ⟨ObjectType.mk "Query" [] [], List.Mem.head _, rfl⟩
  · rfl

end GraphNode
